import Mathlib

/-!
Verification development for the schemdraw drawing core:
a shallow embedding of the SVG canvas backend, the matplotlib canvas
backend, and the drawing-session engine, with theorems about the
coordinate transform, the elliptical-arc reduction, arrowhead
construction, z-order export, the pen-up plot convention, the push/pop
state stack, undo, and bounding-box clamping.

Python floats are modelled as real numbers; the not-a-number sentinel
used by the plot pen-up convention gets its own constructor.  String
serialization of the markup is modelled structurally: each emitted node
is a constructor carrying the numeric attributes that the source writes
into the node, since real numbers have no canonical decimal rendering
inside the logic.
-/

/-- math.radians: degrees to radians. -/
noncomputable def radians (x : ℝ) : ℝ := x * (Real.pi / 180)

/-- math.degrees: radians to degrees. -/
noncomputable def degrees (x : ℝ) : ℝ := x * (180 / Real.pi)

/-- math.atan2(y, x): the argument angle of the point (x, y), in (-pi, pi].
Modelled as the complex argument of x + y*i, which agrees with atan2 on
all real inputs (atan2(0, 0) = 0 = arg 0). -/
noncomputable def atan2 (y x : ℝ) : ℝ := Complex.arg ⟨x, y⟩

/-- Python round(x, 2): round to two decimal places.  Python uses
round-half-even on binary floats; the model rounds half up.  The two differ
only at exact .005 midpoints, which no claim here depends on. -/
noncomputable def round2 (x : ℝ) : ℝ := ((round (x * 100) : ℤ) : ℝ) / 100

/-- Result of the svg backend arc loop that runs
while t1 < t2: t1 += 2*pi.
In closed form: the smallest t1 + 2*pi*k (k a natural number) that is
greater than or equal to t2, which is t1 itself when t1 is not below t2. -/
noncomputable def whileLift (t1 t2 : ℝ) : ℝ :=
  if t1 < t2 then t1 + 2 * Real.pi * ⌈(t2 - t1) / (2 * Real.pi)⌉ else t1

/-- A 2-D point in user or device units. -/
abbrev Pt : Type := ℝ × ℝ

/-- Pointwise addition of points (schemdraw util.Point supports arithmetic). -/
def ptAdd (p q : Pt) : Pt := (p.1 + q.1, p.2 + q.2)

/-- Modelled from the spec: the geometry utility Point type
(src/schemdraw/util.py is not part of the provided sources) supports
rotation; Point.rotate(theta) rotates by theta degrees about the origin. -/
noncomputable def ptRotate (p : Pt) (deg : ℝ) : Pt :=
  let r := radians deg
  (p.1 * Real.cos r - p.2 * Real.sin r, p.1 * Real.sin r + p.2 * Real.cos r)

/-- Modelled from the spec: Point rotation about an arbitrary center,
in degrees (util.Point.rotate with a center argument). -/
noncomputable def ptRotateAbout (p : Pt) (deg : ℝ) (c : Pt) : Pt :=
  let q := ptRotate (p.1 - c.1, p.2 - c.2) deg
  (q.1 + c.1, q.2 + c.2)

/-- A bounding box in user units (types.BBox): xmin, ymin, xmax, ymax. -/
structure BBoxR where
  xmin : ℝ
  ymin : ℝ
  xmax : ℝ
  ymax : ℝ

/-- A Python float coordinate as seen by Figure.plot: either the
not-a-number sentinel (detected in the source by comparing str(x) with the
text nan) or a
finite real value.  Infinities play no role in the pen-up convention and
are not modelled. -/
inductive FCoord where
  | nan : FCoord
  | fin : ℝ → FCoord

/-- Whether a coordinate is the not-a-number sentinel. -/
def FCoord.isNan : FCoord → Bool
  | .nan => true
  | .fin _ => false

/-- One token of the path data string built by Figure.plot: a move
letter, a line letter, or a coordinate pair. -/
inductive Tok where
  | M : Tok
  | L : Tok
  | pt (x y : FCoord) : Tok

/-- The endswith check of the source: the last token of the path data is a
bare move letter. -/
def endsWithM (d : List Tok) : Bool :=
  match d.getLast? with
  | some Tok.M => true
  | _ => false

/-- One node of the SVG document, carrying the numeric attributes the
source writes into the node.  Style strings built by getstyle are kept as
their constituent values. -/
inductive SvgElem where
  | path (d : List Tok) (color ls : String) (lw : ℝ) (fill capstyle joinstyle : String)
  | textE (s : String) (x y : ℝ) (color : String) (fontsize : ℝ) (fontfamily : String)
      (rotation : ℝ) (halign valign : String)
  | polygonE (points : List Pt) (color ls : String) (lw : ℝ) (fill capstyle joinstyle : String)
  | circleE (cx cy r : ℝ) (color : String) (lw : ℝ) (ls fill : String)
  | ellipseE (cx cy rx ry angle : ℝ) (stroke : String) (strokeWidth : ℝ)
  | arcPath (startx starty rx ry xrot : ℝ) (largeArc sweep : ℕ) (dx dy : ℝ)
      (stroke : String) (strokeWidth : ℝ)
  | arrowHeadPath (head fin1 fin2 : Pt) (color : String)
  | arrowTailPath (finc tail : Pt) (color : String) (lw : ℝ)
  | frameRect (x y w h : ℝ)

/-- The SVG backend Figure state: buffered (zorder, node) pairs, frame
flag, scale, bounding box, pixel size, background color. -/
structure SvgFig where
  svgelements : List (ℤ × SvgElem)
  showframe : Bool
  scale : ℝ
  bbox : BBoxR
  pxwidth : ℝ
  pxheight : ℝ
  bgcolorF : Option String

/-- Figure.set_bbox: store the bounding box and recompute the pixel
width and height, each clamped to at least 5. -/
noncomputable def set_bbox (f : SvgFig) (bbox : BBoxR) : SvgFig :=
  { f with
    bbox := bbox
    pxwidth := max 5 ((bbox.xmax - bbox.xmin) * f.scale)
    pxheight := max 5 ((bbox.ymax - bbox.ymin) * f.scale) }

/-- Figure.__init__: empty element buffer, scale 64.8 times
inches_per_unit (the magic factor matching matplotlib), then set_bbox. -/
noncomputable def mkSvgFigure (bbox : BBoxR) (inches_per_unit : ℝ) (showframe : Bool) : SvgFig :=
  set_bbox
    { svgelements := []
      showframe := showframe
      scale := 64.8 * inches_per_unit
      bbox := bbox
      pxwidth := 0
      pxheight := 0
      bgcolorF := none }
    bbox

/-- Figure.xform: user coordinates to svg device coordinates
(x scaled, y scaled and negated). -/
noncomputable def xform (f : SvgFig) (x y : ℝ) : ℝ × ℝ :=
  (x * f.scale, -(y * f.scale))

/-- xform on a possibly-nan x coordinate (nan times scale is nan). -/
noncomputable def xformFX (s : ℝ) : FCoord → FCoord
  | .nan => .nan
  | .fin v => .fin (v * s)

/-- xform on a possibly-nan y coordinate (negated; nan stays nan). -/
noncomputable def xformFY (s : ℝ) : FCoord → FCoord
  | .nan => .nan
  | .fin v => .fin (-(v * s))

/-- The body of the Figure.plot loop over the tail points: a point with a
nan coordinate appends a bare move letter and is skipped; otherwise a
line letter is appended unless the path already ends with a bare move
letter, and then the transformed coordinate pair is appended. -/
noncomputable def plotStep (s : ℝ) (d : List Tok) (p : FCoord × FCoord) : List Tok :=
  if p.1.isNan || p.2.isNan then d ++ [Tok.M]
  else (if endsWithM d then d else d ++ [Tok.L]) ++ [Tok.pt (xformFX s p.1) (xformFY s p.2)]

/-- Figure.plot: build the path data starting from a move to the first
point, fold the loop body over the remaining zipped points, and append a
single path node to the buffer.  Indexing x[0] or y[0] on an empty
sequence raises in the source, modelled as none. -/
noncomputable def svgPlot (f : SvgFig) (x y : List FCoord) (color ls : String) (lw : ℝ)
    (fill capstyle joinstyle : String) (zorder : ℤ) : Option SvgFig :=
  match x, y with
  | x0 :: xs, y0 :: ys =>
    let d0 : List Tok := [Tok.M, Tok.pt (xformFX f.scale x0) (xformFY f.scale y0)]
    let d := (xs.zip ys).foldl (plotStep f.scale) d0
    some { f with svgelements :=
            f.svgelements ++ [(zorder, SvgElem.path d color ls lw fill capstyle joinstyle)] }
  | _, _ => none

/-- Figure.text: the empty string returns immediately; otherwise the text
node (built by the ziamath or svgtext collaborator, modelled as a single
node carrying the call parameters) is appended at the transformed anchor. -/
noncomputable def svgText (f : SvgFig) (s : String) (x y : ℝ) (color : String) (fontsize : ℝ)
    (fontfamily : String) (rotation : ℝ) (halign valign : String) (zorder : ℤ) : SvgFig :=
  if s = "" then f
  else
    let p := xform f x y
    { f with svgelements := f.svgelements ++
        [(zorder, SvgElem.textE s p.1 p.2 color fontsize fontfamily rotation halign valign)] }

/-- The rotation angle used by the svg Figure.arrow: the negated degree
measure of the direction of the device-space vector (dx, dy). -/
noncomputable def svgArrowTheta (dx dy : ℝ) : ℝ := -(degrees (atan2 dy dx))

/-- The svg arrow tip: the device endpoint (x+dx, y-dy) pulled back by lw
(device units) along the direction angle. -/
noncomputable def svgArrowHead (x y dx dy lw : ℝ) : Pt :=
  (x + dx - lw * Real.cos (radians (svgArrowTheta dx dy)),
   y - dy - lw * Real.sin (radians (svgArrowTheta dx dy)))

/-- An svg arrow fin point: (fullen - headlength, off) rotated by the
arrow angle and translated to the tail, where off is headwidth/2, 0, or
-headwidth/2. -/
noncomputable def svgArrowFin (x y dx dy hl off : ℝ) : Pt :=
  ptAdd (ptRotate (Real.sqrt (dx ^ 2 + dy ^ 2) - hl, off) (svgArrowTheta dx dy)) (x, y)

/-- svg Figure.arrow: scale all quantities to device units, then append
the filled triangular head path and the shaft-cap path, both at the given
z-order. -/
noncomputable def svgArrow (f : SvgFig) (x y dx dy hw hl : ℝ) (color : String) (lw : ℝ)
    (zorder : ℤ) : SvgFig :=
  let q := xform f x y
  let dxs := dx * f.scale
  let dys := dy * f.scale
  let hws := hw * f.scale
  let hls := hl * f.scale
  { f with svgelements := f.svgelements ++
      [(zorder, SvgElem.arrowHeadPath (svgArrowHead q.1 q.2 dxs dys lw)
          (svgArrowFin q.1 q.2 dxs dys hls (hws / 2))
          (svgArrowFin q.1 q.2 dxs dys hls (-(hws / 2))) color),
       (zorder, SvgElem.arrowTailPath (svgArrowFin q.1 q.2 dxs dys hls 0) (q.1, q.2) color lw)] }

/-- Optional arrowhead position on an arc sweep. -/
inductive ArrowDir where
  | cw : ArrowDir
  | ccw : ArrowDir

/-- The intermediate values of the svg Figure.arc computation, recorded
so theorems can speak about the eccentric parameter bounds, the lifted
sweep bound, the rounded endpoints, and the emitted node. -/
structure ArcData where
  centerx : ℝ
  centery : ℝ
  width : ℝ
  height : ℝ
  angle : ℝ
  t1raw : ℝ
  t2 : ℝ
  t1 : ℝ
  startx : ℝ
  starty : ℝ
  endx : ℝ
  endy : ℝ
  dx : ℝ
  dy : ℝ
  elem : SvgElem

open Classical in
/-- The arc-to-node computation of svg Figure.arc: transform the center,
scale the axes, negate the angles, compute the eccentric parameter bounds
with atan2, lift t1 by full turns until it is at least t2, compute and
round the sweep endpoints, and emit either a dedicated ellipse node (when
the endpoints coincide within 0.1 device units on both axes) or a single
elliptical-arc path node with sweep flag 1 and large-arc flag 1 exactly
when the angular span is at least pi. -/
noncomputable def arcCalc (f : SvgFig) (cx cy w h θ1 θ2 ang : ℝ) (color : String) (lw : ℝ) :
    ArcData :=
  let c := xform f cx cy
  let width := w * f.scale
  let height := h * f.scale
  let angle := -ang
  let anglerad := radians angle
  let th1 := radians (-θ1)
  let th2 := radians (-θ2)
  let t1raw := atan2 (width * Real.sin th1) (height * Real.cos th1)
  let t2 := atan2 (width * Real.sin th2) (height * Real.cos th2)
  let t1 := whileLift t1raw t2
  let startx := round2 (c.1 + width / 2 * Real.cos t2 * Real.cos anglerad
                  - height / 2 * Real.sin t2 * Real.sin anglerad)
  let starty := round2 (c.2 + width / 2 * Real.cos t2 * Real.sin anglerad
                  + height / 2 * Real.sin t2 * Real.cos anglerad)
  let endx := round2 (c.1 + width / 2 * Real.cos t1 * Real.cos anglerad
                  - height / 2 * Real.sin t1 * Real.sin anglerad)
  let endy := round2 (c.2 + width / 2 * Real.cos t1 * Real.sin anglerad
                  + height / 2 * Real.sin t1 * Real.cos anglerad)
  let dx := endx - startx
  let dy := endy - starty
  let elem :=
    if |dx| < 0.1 ∧ |dy| < 0.1 then
      SvgElem.ellipseE c.1 c.2 (width / 2) (height / 2) angle color lw
    else
      SvgElem.arcPath startx starty (width / 2) (height / 2) angle
        (if Real.pi ≤ |t2 - t1| then 1 else 0) 1 dx dy color lw
  { centerx := c.1, centery := c.2, width := width, height := height, angle := angle
    t1raw := t1raw, t2 := t2, t1 := t1
    startx := startx, starty := starty, endx := endx, endy := endy
    dx := dx, dy := dy, elem := elem }

/-- svg Figure.arc: append the node computed by arcCalc, then, when an
arrowhead is requested, recover the user-space angles, place the head on
the sweep tangent (the source mixes the corrected angle th2 and the raw
angle theta2 in the ccw branch, reproduced faithfully), rotate by the arc
rotation, and delegate to Figure.arrow with line width 1. -/
noncomputable def svgArc (f : SvgFig) (center : Pt) (w h θ1 θ2 ang : ℝ) (color : String)
    (lw : ℝ) (zorder : ℤ) (arrow : Option ArrowDir) : SvgFig :=
  let A := arcCalc f center.1 center.2 w h θ1 θ2 ang color lw
  let f1 := { f with svgelements := f.svgelements ++ [(zorder, A.elem)] }
  match arrow with
  | none => f1
  | some dir =>
    let headlength : ℝ := 0.25
    let headwidth : ℝ := 0.15
    let th2 := degrees (atan2 ((w / h) * Real.sin (radians θ2)) (Real.cos (radians θ2)))
    let th1 := degrees (atan2 ((w / h) * Real.sin (radians θ1)) (Real.cos (radians θ1)))
    let dxy : Pt :=
      match dir with
      | .ccw => (Real.cos (radians (th2 + 90)) * headlength,
                 Real.sin (radians (θ2 + 90)) * headlength)
      | .cw => (-(Real.cos (radians (th1 + 90)) * headlength),
                -(Real.sin (radians (th1 + 90)) * headlength))
    let xy : Pt :=
      match dir with
      | .ccw => (center.1 + w / 2 * Real.cos (radians th2),
                 center.2 + h / 2 * Real.sin (radians th2))
      | .cw => (center.1 + w / 2 * Real.cos (radians th1),
                center.2 + h / 2 * Real.sin (radians th1))
    let xyr := ptRotateAbout xy ang center
    let darrow := ptRotate dxy ang
    svgArrow f1 xyr.1 xyr.2 darrow.1 darrow.2 headwidth headlength color 1 zorder

/-- The boolean z-order comparison used to sort buffered nodes at export. -/
def zle (a b : ℤ × SvgElem) : Bool := decide (a.1 ≤ b.1)

/-- The root svg element produced by Figure.getimage: physical size and
view window derived from the bounding box with 2 units of padding, and
the children. -/
structure SvgRoot where
  heightAttr : ℝ
  widthAttr : ℝ
  viewMinX : ℝ
  viewMinY : ℝ
  viewW : ℝ
  viewH : ℝ
  children : List SvgElem

/-- Figure.getimage: the root element sized from the stored pixel size
plus 2 units of padding per side, an optional frame rectangle, and the
buffered nodes sorted stably by ascending z-order (Python sorted is a
stable sort; modelled by the stable merge sort). -/
noncomputable def getimage (f : SvgFig) : SvgRoot :=
  let pad : ℝ := 2
  let x0 := f.bbox.xmin * f.scale - pad
  let y0 := -(f.bbox.ymax * f.scale) - pad
  { heightAttr := f.pxheight + 2 * pad
    widthAttr := f.pxwidth + 2 * pad
    viewMinX := x0
    viewMinY := y0
    viewW := f.pxwidth + 2 * pad
    viewH := f.pxheight + 2 * pad
    children :=
      (if f.showframe then [SvgElem.frameRect x0 y0 f.pxwidth f.pxheight] else []) ++
        (f.svgelements.mergeSort zle).map Prod.snd }

/-- Figure.clear: drop the buffered nodes, keep the configuration. -/
def svgClear (f : SvgFig) : SvgFig := { f with svgelements := [] }

/-- One artist added to the matplotlib axes, carrying the parameters the
backend passes to the underlying plotting surface. -/
inductive MplArtist where
  | lineA (x y : List ℝ) (zorder : ℤ) (color ls : String) (lw : ℝ)
      (capstyle joinstyle : String) (clip : Option BBoxR)
  | fillA (x y : List ℝ) (color : String) (zorder : ℤ) (clip : Option BBoxR)
  | textA (s : String) (x y : ℝ) (color : String) (fontsize : ℝ) (fontfamily : String)
      (rotation : ℝ) (halign valign : String) (zorder : ℤ) (clip : Option BBoxR)
  | polygonA (verts : List Pt) (closed : Bool) (ec : String) (fc : Option String)
      (lw : ℝ) (zorder : ℤ) (clip : Option BBoxR)
  | circleA (center : Pt) (radius : ℝ) (ec : String) (fc : Option String) (lw : ℝ)
      (ls : String) (zorder : ℤ)
  | arcA (center : Pt) (width height theta1 theta2 angle : ℝ) (color : String)
      (lw : ℝ) (ls : String) (zorder : ℤ) (clip : Option BBoxR)

/-- The matplotlib backend Figure state: the artists accumulated on the
axes, the bounding-box override, the scale, the frame flag. -/
structure MplFig where
  artists : List MplArtist
  bboxM : Option BBoxR
  inches_per_unit : ℝ
  showframe : Bool

/-- mpl Figure.text: delegate to the axes text primitive.  There is no
empty-string check in this backend: every call, the empty string
included, adds a text artist. -/
def mplText (f : MplFig) (s : String) (x y : ℝ) (color : String) (fontsize : ℝ)
    (fontfamily : String) (rotation : ℝ) (halign valign : String) (zorder : ℤ)
    (clip : Option BBoxR) : MplFig :=
  { f with artists := f.artists ++
      [MplArtist.textA s x y color fontsize fontfamily rotation halign valign zorder clip] }

/-- The rotation angle used by mpl Figure.arrow: the degree measure of
the direction of (dx, dy). -/
noncomputable def mplArrowTheta (dx dy : ℝ) : ℝ := degrees (atan2 dy dx)

/-- An mpl arrow fin point: (fullen - headlength, off) rotated by the
direction angle and translated to the tail. -/
noncomputable def mplArrowFin (x y dx dy hl off : ℝ) : Pt :=
  ptAdd (ptRotate (Real.sqrt (dx ^ 2 + dy ^ 2) - hl, off) (mplArrowTheta dx dy)) (x, y)

/-- mpl Figure.arrow: add a single filled closed polygon (fin1, head,
fin2) with the head exactly at (x+dx, y+dy); the lw argument is not used
for the geometry. -/
noncomputable def mplArrow (f : MplFig) (x y dx dy hw hl : ℝ) (color : String) (lw : ℝ)
    (clip : Option BBoxR) (zorder : ℤ) : MplFig :=
  { f with artists := f.artists ++
      [MplArtist.polygonA
        [mplArrowFin x y dx dy hl (hw / 2), (x + dx, y + dy), mplArrowFin x y dx dy hl (-(hw / 2))]
        true "none" (some color) 1 zorder clip] }

/-- Modelled from the spec: the element contract of the layout engine
(the Element base class lives outside the provided sources).  An element
placed in a drawing exposes a placement operation taking cursor and
heading, its recorded exit state (the absdrop attribute read by undo), a
draw operation against a canvas, and a transformed bounding box. -/
structure ElementM where
  place : Pt → ℝ → Pt × ℝ
  absdrop : Pt × ℝ
  drawS : SvgFig → SvgFig
  bboxT : BBoxR

/-- The drawing-session state: ordered elements, cursor, heading, the
push/pop snapshot stack, and the lazily built canvas (none when no canvas
is current). -/
structure DrawingS where
  elements : List ElementM
  here : Pt
  theta : ℝ
  state : List (Pt × ℝ)
  fig : Option SvgFig

/-- Drawing.__init__: empty element list, cursor at the origin, heading
zero, empty snapshot stack, no canvas. -/
def initDrawing : DrawingS :=
  { elements := [], here := ((0 : ℝ), (0 : ℝ)), theta := 0, state := [], fig := none }

/-- Drawing.add in the non-interactive path: place the element at the
current cursor and heading (mutating both to the exit state of the element),
append it, and clear any existing canvas.  The interactive live-redraw
path is outside the modelled fragment. -/
def addD (d : DrawingS) (e : ElementM) : DrawingS :=
  let p := e.place d.here d.theta
  { d with here := p.1, theta := p.2, elements := d.elements ++ [e], fig := none }

/-- Drawing.push: append a snapshot of the cursor and heading. -/
def pushD (d : DrawingS) : DrawingS :=
  { d with state := d.state ++ [(d.here, d.theta)] }

/-- Drawing.pop: when the stack is nonempty, restore the cursor and
heading from the last snapshot and drop it; on an empty stack, a no-op. -/
def popD (d : DrawingS) : DrawingS :=
  match d.state.getLast? with
  | none => d
  | some s => { d with here := s.1, theta := s.2, state := d.state.dropLast }

/-- Drawing.get_bbox: fold the transformed bounding boxes of the elements with
min and max.  The source starts the fold from the all-infinite sentinel;
with no elements the result is that sentinel, modelled as none. -/
def get_bboxD (es : List ElementM) : Option BBoxR :=
  match es with
  | [] => none
  | e :: rest =>
    some (rest.foldl
      (fun bb el =>
        { xmin := min el.bboxT.xmin bb.xmin, ymin := min el.bboxT.ymin bb.ymin
          xmax := max el.bboxT.xmax bb.xmax, ymax := max el.bboxT.ymax bb.ymax })
      e.bboxT)

/-- Drawing.undo: pop the last element (IndexError on an empty list,
modelled as none), clear the canvas (AttributeError when no canvas is
built, modelled as none), redraw the remaining elements, restore the
cursor and heading from the new last element (IndexError when none
remains, modelled as none), and recompute the canvas bounding box.  The
final getimage call reads but does not change the state. -/
noncomputable def undoD (d : DrawingS) : Option DrawingS :=
  match d.elements with
  | [] => none
  | _ :: _ =>
    let es := d.elements.dropLast
    match d.fig with
    | none => none
    | some fig =>
      let fig1 := svgClear fig
      let fig2 := es.foldl (fun fg e => e.drawS fg) fig1
      match es.getLast? with
      | none => none
      | some lastE =>
        let fig3 :=
          match get_bboxD es with
          | some bb => set_bbox fig2 bb
          | none => fig2
        some { d with elements := es, here := lastE.absdrop.1, theta := lastE.absdrop.2
                      fig := some fig3 }

/-- The default svg figure used in concrete scenarios: unit bounding box,
the default half inch per unit, no frame. -/
noncomputable def figDefault : SvgFig :=
  mkSvgFigure { xmin := 0, ymin := 0, xmax := 1, ymax := 1 } 0.5 false

/-- An empty matplotlib figure used in concrete scenarios. -/
def mplFig0 : MplFig :=
  { artists := [], bboxM := none, inches_per_unit := 0.5, showframe := false }

/-- A concrete element used in the undo scenarios: a horizontal
three-unit element whose exit state is ((3, 0), 0). -/
def elemA : ElementM :=
  { place := fun p th => ((p.1 + 3, p.2), th)
    absdrop := (((3 : ℝ), (0 : ℝ)), (0 : ℝ))
    drawS := fun fg => fg
    bboxT := { xmin := 0, ymin := 0, xmax := 3, ymax := 0 } }

/-- A concrete figure with two buffered nodes of equal z-order and one
lower, used as the export witness. -/
noncomputable def figC4 : SvgFig :=
  { figDefault with svgelements :=
      [(2, SvgElem.circleE 0 0 1 "black" 2 "-" "none"),
       (1, SvgElem.circleE 1 1 1 "red" 2 "-" "none"),
       (1, SvgElem.circleE 2 2 1 "blue" 2 "-" "none")] }

/-- A second concrete element for the undo scenarios, exiting at
((3, 2), 90). -/
def elemB : ElementM :=
  { place := fun p th => ((p.1, p.2 + 2), th + 90)
    absdrop := (((3 : ℝ), (2 : ℝ)), (90 : ℝ))
    drawS := fun fg => fg
    bboxT := { xmin := 3, ymin := 0, xmax := 3, ymax := 2 } }

/-- A concrete one-element session with a built canvas, used in the undo
counterexample. -/
noncomputable def dC3one : DrawingS :=
  { addD initDrawing elemA with fig := some figDefault }

/-- A concrete two-element session with a built canvas, used in the undo
witness. -/
noncomputable def dC3two : DrawingS :=
  { addD (addD initDrawing elemA) elemB with fig := some figDefault }

theorem atan2_zero_of_nonneg {x : ℝ} (hx : 0 ≤ x) : atan2 0 x = 0 := by
  unfold atan2
  have h : (⟨x, 0⟩ : ℂ) = (x : ℂ) := by
    apply Complex.ext <;> simp
  rw [h]
  exact Complex.arg_ofReal_of_nonneg hx

theorem atan2_neg_half_pi {y : ℝ} (hy : y < 0) : atan2 y 0 = -(Real.pi / 2) := by
  unfold atan2
  exact Complex.arg_eq_neg_pi_div_two_iff.mpr ⟨rfl, hy⟩

theorem atan2_smul {c : ℝ} (hc : 0 < c) (y x : ℝ) : atan2 (c * y) (c * x) = atan2 y x := by
  unfold atan2
  have h : (⟨c * x, c * y⟩ : ℂ) = (c : ℂ) * ⟨x, y⟩ := by
    apply Complex.ext <;> simp [Complex.mul_re, Complex.mul_im]
  rw [h]
  exact Complex.arg_real_mul _ hc

theorem cos_atan2 {y x : ℝ} (h : ¬(x = 0 ∧ y = 0)) :
    Real.cos (atan2 y x) = x / Real.sqrt (x ^ 2 + y ^ 2) := by
  unfold atan2
  have hz : (⟨x, y⟩ : ℂ) ≠ 0 := by
    intro hzero
    exact h ⟨congrArg Complex.re hzero, congrArg Complex.im hzero⟩
  have := Complex.cos_arg hz
  rw [this]
  congr 1
  rw [Complex.abs_apply, Complex.normSq_mk]
  ring_nf

theorem sin_atan2 (y x : ℝ) :
    Real.sin (atan2 y x) = y / Real.sqrt (x ^ 2 + y ^ 2) := by
  unfold atan2
  have := Complex.sin_arg (⟨x, y⟩ : ℂ)
  rw [this]
  congr 1
  rw [Complex.abs_apply, Complex.normSq_mk]
  ring_nf

theorem radians_degrees (t : ℝ) : radians (degrees t) = t := by
  unfold radians degrees
  have hpi := Real.pi_ne_zero
  field_simp

theorem whileLift_of_ge {t1 t2 : ℝ} (h : t2 ≤ t1) : whileLift t1 t2 = t1 := by
  unfold whileLift
  rw [if_neg (not_lt.mpr h)]

theorem whileLift_ge (t1 t2 : ℝ) : t2 ≤ whileLift t1 t2 := by
  unfold whileLift
  by_cases h : t1 < t2
  · rw [if_pos h]
    have h2pi : (0 : ℝ) < 2 * Real.pi := Real.two_pi_pos
    have hceil := Int.le_ceil ((t2 - t1) / (2 * Real.pi))
    have := (div_le_iff h2pi).mp hceil
    linarith [this]
  · rw [if_neg h]
    exact le_of_not_lt h

theorem whileLift_min {t1 t2 : ℝ} (h : t1 < t2) : whileLift t1 t2 - 2 * Real.pi < t2 := by
  unfold whileLift
  rw [if_pos h]
  have h2pi : (0 : ℝ) < 2 * Real.pi := Real.two_pi_pos
  have hceil := Int.ceil_lt_add_one ((t2 - t1) / (2 * Real.pi))
  have hmul := (mul_lt_mul_left h2pi).mpr hceil
  rw [mul_add, mul_one, mul_div_cancel₀ _ (ne_of_gt h2pi)] at hmul
  linarith [hmul]

theorem whileLift_add_turns (t1 t2 : ℝ) :
    ∃ k : ℕ, whileLift t1 t2 = t1 + 2 * Real.pi * k := by
  unfold whileLift
  by_cases h : t1 < t2
  · rw [if_pos h]
    have h2pi : (0 : ℝ) < 2 * Real.pi := Real.two_pi_pos
    have hpos : 0 < (t2 - t1) / (2 * Real.pi) := div_pos (by linarith) h2pi
    have hc : 0 ≤ ⌈(t2 - t1) / (2 * Real.pi)⌉ := by
      exact_mod_cast le_of_lt (lt_of_lt_of_le (Int.cast_pos.mpr
        (Int.ceil_pos.mpr hpos)) (le_refl _))
    refine ⟨(⌈(t2 - t1) / (2 * Real.pi)⌉).toNat, ?_⟩
    have hcast : ((⌈(t2 - t1) / (2 * Real.pi)⌉.toNat : ℕ) : ℝ)
        = ((⌈(t2 - t1) / (2 * Real.pi)⌉ : ℤ) : ℝ) := by
      exact_mod_cast congrArg (Int.cast : ℤ → ℝ) (Int.toNat_of_nonneg hc)
    rw [hcast]
  · rw [if_neg h]
    exact ⟨0, by simp⟩

theorem round2_of_mul_int (n : ℤ) {x : ℝ} (h : x * 100 = n) : round2 x = x := by
  unfold round2
  rw [h, round_intCast]
  have : x = (n : ℝ) / 100 := by
    field_simp
    linarith [h]
  rw [← this]

theorem popD_pushD (d : DrawingS) : popD (pushD d) = d := by
  cases d
  simp [popD, pushD]

/-- Claim C9: for every drawing session and every number n, n push calls
followed by n pop calls with no intervening moves restore the cursor
position and heading (indeed the whole session state) to their values
before the first push; the pushed snapshot records exactly the cursor and
heading at push time; and popping with an empty stack leaves the session,
in particular the cursor and heading, unchanged. -/
theorem C9_push_pop :
    (∀ (d : DrawingS) (n : ℕ), popD^[n] (pushD^[n] d) = d) ∧
    (∀ d : DrawingS, d.state = [] → popD d = d) ∧
    (∀ d : DrawingS, (pushD d).state.getLast? = some (d.here, d.theta)) := by
  refine ⟨?_, ?_, ?_⟩
  · intro d n
    induction n with
    | zero => simp
    | succ n ih =>
      have h1 : pushD^[n + 1] d = pushD (pushD^[n] d) := Function.iterate_succ_apply' _ _ _
      have h2 : popD^[n + 1] (pushD (pushD^[n] d)) = popD^[n] (popD (pushD (pushD^[n] d))) :=
        Function.iterate_succ_apply _ _ _
      rw [h1, h2, popD_pushD, ih]
  · intro d h
    simp [popD, h]
  · intro d
    simp [pushD]

/-- Witness for C9 at a concrete session: the initial drawing has an
empty stack, popping it is a no-op, and two pushes followed by two pops
restore it. -/
theorem C9_witness :
    initDrawing.state = [] ∧ popD initDrawing = initDrawing ∧
    popD^[2] (pushD^[2] initDrawing) = initDrawing :=
  ⟨rfl, C9_push_pop.2.1 initDrawing rfl, C9_push_pop.1 initDrawing 2⟩

/-- Claim C10: for every bounding box passed to the svg backend set_bbox,
including degenerate boxes with zero or negative extents, the computed
pixel width and height are each clamped to at least 5, so the exported
root element declares a strictly positive physical width and height. -/
theorem C10_bbox_clamp (f : SvgFig) (bbox : BBoxR) :
    5 ≤ (set_bbox f bbox).pxwidth ∧ 5 ≤ (set_bbox f bbox).pxheight ∧
    0 < (getimage (set_bbox f bbox)).widthAttr ∧
    0 < (getimage (set_bbox f bbox)).heightAttr := by
  have hw : 5 ≤ (set_bbox f bbox).pxwidth := by
    simp only [set_bbox]
    exact le_max_left _ _
  have hh : 5 ≤ (set_bbox f bbox).pxheight := by
    simp only [set_bbox]
    exact le_max_left _ _
  refine ⟨hw, hh, ?_, ?_⟩
  · simp only [getimage]
    linarith
  · simp only [getimage]
    linarith

/-- Counterexample to claim C7 as stated: on the matplotlib backend, the
text operation with the empty string is not a no-op; starting from an
empty figure it adds one (empty) text artist, changing the accumulated
drawing state. -/
theorem C7_counterexample :
    (mplText mplFig0 "" 0 0 "black" 14 "sans-serif" 0 "center" "center" 3 none).artists
      = [MplArtist.textA "" 0 0 "black" 14 "sans-serif" 0 "center" "center" 3 none] ∧
    mplFig0.artists = [] :=
  ⟨rfl, rfl⟩

/-- Claim C7 as amended: on the svg backend the text operation with the
empty string is a no-op (state unchanged, no node added); the matplotlib
backend does not special-case the empty string and every text call,
including the empty string, appends one text artist to the surface. -/
theorem C7_text_amended :
    (∀ (f : SvgFig) (x y : ℝ) (color : String) (fs : ℝ) (ff : String) (rot : ℝ)
      (ha va : String) (zo : ℤ), svgText f "" x y color fs ff rot ha va zo = f) ∧
    (∀ (f : MplFig) (s : String) (x y : ℝ) (color : String) (fs : ℝ) (ff : String)
      (rot : ℝ) (ha va : String) (zo : ℤ) (clip : Option BBoxR),
      (mplText f s x y color fs ff rot ha va zo clip).artists
        = f.artists ++ [MplArtist.textA s x y color fs ff rot ha va zo clip]) := by
  constructor
  · intro f x y color fs ff rot ha va zo
    simp [svgText]
  · intro f s x y color fs ff rot ha va zo clip
    rfl

/-- Claim C8: in the svg backend plot operation, a tail point with a
not-a-number coordinate appends a bare pen-up move (no line letter, and
its coordinates are discarded) starting a new disconnected subpath; and
no point sequence is an error: for every nonempty input the call
completes, appending exactly one path node. -/
theorem C8_penup :
    (∀ (s : ℝ) (d : List Tok) (p : FCoord × FCoord), (p.1.isNan || p.2.isNan) = true →
      plotStep s d p = d ++ [Tok.M]) ∧
    (∀ (f : SvgFig) (x0 y0 : FCoord) (xs ys : List FCoord) (color ls : String) (lw : ℝ)
      (fill cap join : String) (zo : ℤ), ∃ g,
      svgPlot f (x0 :: xs) (y0 :: ys) color ls lw fill cap join zo = some g ∧
      g.svgelements.length = f.svgelements.length + 1) := by
  constructor
  · intro s d p hp
    simp [plotStep, hp]
  · intro f x0 y0 xs ys color ls lw fill cap join zo
    refine ⟨_, rfl, ?_⟩
    simp

/-- Witness for C8 at a concrete input: a nan point in the tail produces
exactly a pen-up move token, and a plot containing a nan point completes,
appending one path node. -/
theorem C8_witness :
    ((FCoord.nan.isNan || (FCoord.fin 0).isNan) = true) ∧
    plotStep 1 [] (FCoord.nan, FCoord.fin 0) = [Tok.M] ∧
    (∃ g, svgPlot figDefault [FCoord.fin 0, FCoord.nan] [FCoord.fin 0, FCoord.fin 1]
        "black" "-" 2 "none" "round" "round" 2 = some g ∧
      g.svgelements.length = figDefault.svgelements.length + 1) :=
  ⟨rfl, C8_penup.1 1 [] (FCoord.nan, FCoord.fin 0) rfl,
    C8_penup.2 figDefault (FCoord.fin 0) (FCoord.fin 0) [FCoord.nan] [FCoord.fin 1]
      "black" "-" 2 "none" "round" "round" 2⟩

theorem zle_trans (a b c : ℤ × SvgElem) : zle a b → zle b c → zle a c := by
  simp only [zle, decide_eq_true_eq]
  exact le_trans

theorem zle_total (a b : ℤ × SvgElem) : zle a b || zle b a := by
  simp only [zle, Bool.or_eq_true, decide_eq_true_eq]
  exact le_total a.1 b.1

/-- Claim C4: with the frame rectangle off (the default), export
serializes as children of the root exactly the buffered nodes sorted
stably by ascending z-order: the child count equals the buffered count,
adjacent children have nondecreasing z-order, and any two buffered nodes
with equal z-order keep their submission order in the sorted output. -/
theorem C4_export_zorder (f : SvgFig) (hsf : f.showframe = false) :
    (getimage f).children = (f.svgelements.mergeSort zle).map Prod.snd ∧
    (getimage f).children.length = f.svgelements.length ∧
    List.Pairwise (fun a b : ℤ × SvgElem => a.1 ≤ b.1) (f.svgelements.mergeSort zle) ∧
    (∀ a b : ℤ × SvgElem, a.1 = b.1 → List.Sublist [a, b] f.svgelements →
      List.Sublist [a, b] (f.svgelements.mergeSort zle)) := by
  refine ⟨?_, ?_, ?_, ?_⟩
  · simp [getimage, hsf]
  · simp [getimage, hsf]
  · have h := List.sorted_mergeSort zle_trans zle_total f.svgelements
    exact h.imp (by simp only [zle, decide_eq_true_eq]; exact fun hab => hab)
  · intro a b hab hsub
    exact List.pair_sublist_mergeSort zle_trans zle_total
      (by simp [zle, hab]) hsub

/-- Witness for C4 at a concrete figure: the default figure has the frame
off, and the export properties hold for it with two buffered nodes of
equal z-order. -/
theorem C4_witness :
    figC4.showframe = false ∧
    ((getimage figC4).children = (figC4.svgelements.mergeSort zle).map Prod.snd ∧
     (getimage figC4).children.length = figC4.svgelements.length ∧
     List.Pairwise (fun a b : ℤ × SvgElem => a.1 ≤ b.1) (figC4.svgelements.mergeSort zle) ∧
     (∀ a b : ℤ × SvgElem, a.1 = b.1 → List.Sublist [a, b] figC4.svgelements →
       List.Sublist [a, b] (figC4.svgelements.mergeSort zle))) :=
  ⟨rfl, C4_export_zorder figC4 rfl⟩

theorem figDefault_scale : figDefault.scale = 32.4 := by
  simp only [figDefault, mkSvgFigure, set_bbox]
  norm_num

/-- Claim C5: the svg backend figure built with the default half inch per
unit has scale 32.4 device units per user unit (64.8 times 0.5); its
coordinate transform multiplies x by the scale and y by the negated
scale; and plotting x = [0, 1, 2], y = [0, 1, 0] yields the transformed
device points (0, 0), (32.4, -32.4), (64.8, 0). -/
theorem C5_transform :
    figDefault.scale = 32.4 ∧
    (∀ x y : ℝ, xform figDefault x y = (32.4 * x, -(32.4 * y))) ∧
    svgPlot figDefault [FCoord.fin 0, FCoord.fin 1, FCoord.fin 2]
        [FCoord.fin 0, FCoord.fin 1, FCoord.fin 0] "black" "-" 2 "none" "round" "round" 2
      = some { figDefault with svgelements := figDefault.svgelements ++
          [(2, SvgElem.path
              [Tok.M, Tok.pt (FCoord.fin 0) (FCoord.fin 0),
               Tok.L, Tok.pt (FCoord.fin 32.4) (FCoord.fin (-32.4)),
               Tok.L, Tok.pt (FCoord.fin 64.8) (FCoord.fin 0)]
              "black" "-" 2 "none" "round" "round")] } := by
  refine ⟨figDefault_scale, ?_, ?_⟩
  · intro x y
    simp only [xform, figDefault_scale, Prod.ext_iff]
    constructor
    · ring
    · ring
  · simp only [svgPlot, figDefault_scale, List.zip_cons_cons, List.zip_nil_right,
      List.foldl_cons, List.foldl_nil, plotStep, xformFX, xformFY, FCoord.isNan,
      Bool.or_self, Bool.false_or, endsWithM, List.getLast?, if_false]
    norm_num [endsWithM]

/-- Counterexample to claim C3 as stated: undo on a session holding
exactly one placed element does not return to the pre-add state with an
empty element list; it fails (the source raises before restoring the
cursor), both without a built canvas (AttributeError on fig.clear) and
with one (IndexError reading elements[-1] from the now-empty list). -/
theorem C3_counterexample :
    undoD (addD initDrawing elemA) = none ∧ undoD dC3one = none :=
  ⟨rfl, rfl⟩

/-- Claim C3 as amended: undo on a session with exactly one element
always fails (the element is popped but restoring the cursor state from
the empty list raises); undo succeeds only when at least two elements are
present and a canvas is built, and then it drops the last element and
restores the cursor and heading to the recorded exit state of the new last
element. -/
theorem C3_undo_amended :
    (∀ d : DrawingS, d.elements.length = 1 → undoD d = none) ∧
    (∀ d : DrawingS, 2 ≤ d.elements.length → d.fig.isSome = true →
      ∃ d2 lastE, undoD d = some d2 ∧ d2.elements = d.elements.dropLast ∧
        d2.elements.getLast? = some lastE ∧
        d2.here = lastE.absdrop.1 ∧ d2.theta = lastE.absdrop.2) := by
  constructor
  · intro d h
    obtain ⟨e0, hd⟩ : ∃ e0, d.elements = [e0] := by
      cases hde : d.elements with
      | nil => rw [hde] at h; simp at h
      | cons a l =>
        rw [hde] at h
        simp at h
        exact ⟨a, by rw [h]⟩
    simp only [undoD, hd]
    cases hf : d.fig with
    | none => simp
    | some fig => simp
  · intro d h2 hf
    obtain ⟨fig, hfig⟩ := Option.isSome_iff_exists.mp hf
    obtain ⟨e0, tl0, hd⟩ : ∃ a l, d.elements = a :: l := by
      cases hde : d.elements with
      | nil => rw [hde] at h2; simp at h2
      | cons a l => exact ⟨a, l, rfl⟩
    have htl0 : tl0 ≠ [] := by
      intro hnil
      rw [hd, hnil] at h2
      simp at h2
    have hesne : d.elements.dropLast ≠ [] := by
      rw [hd]
      cases htl1 : tl0 with
      | nil => exact absurd htl1 htl0
      | cons b l => simp
    obtain ⟨lastE, hlast⟩ := Option.isSome_iff_exists.mp (List.getLast?_isSome.mpr hesne)
    obtain ⟨bb, hbb⟩ : ∃ bb, get_bboxD d.elements.dropLast = some bb := by
      rcases hdl : d.elements.dropLast with _ | ⟨a, l⟩
      · exact absurd hdl hesne
      · exact ⟨_, rfl⟩
    rw [hd] at hlast hbb
    have hundo : undoD d = some { d with
        elements := (e0 :: tl0).dropLast
        here := lastE.absdrop.1
        theta := lastE.absdrop.2
        fig := some (set_bbox
          (((e0 :: tl0).dropLast).foldl (fun fg e => e.drawS fg) (svgClear fig)) bb) } := by
      simp only [undoD, hd, hfig, hlast, hbb]
    refine ⟨_, lastE, hundo, ?_, ?_, rfl, rfl⟩
    · rw [hd]
    · exact hlast

/-- Witness for the amended C3 at concrete sessions: the one-element
session fails, and the two-element session with a built canvas undoes to
the exit state of its first element. -/
theorem C3_witness :
    (dC3one.elements.length = 1 ∧ undoD dC3one = none) ∧
    (2 ≤ dC3two.elements.length ∧ dC3two.fig.isSome = true ∧
      ∃ d2 lastE, undoD dC3two = some d2 ∧ d2.elements = dC3two.elements.dropLast ∧
        d2.elements.getLast? = some lastE ∧
        d2.here = lastE.absdrop.1 ∧ d2.theta = lastE.absdrop.2) :=
  ⟨⟨rfl, C3_undo_amended.1 dC3one rfl⟩,
    ⟨by norm_num [dC3two, addD, initDrawing], rfl,
      C3_undo_amended.2 dC3two (by norm_num [dC3two, addD, initDrawing]) rfl⟩⟩

theorem radians_zero : radians 0 = 0 := by
  simp [radians]

theorem degrees_zero : degrees 0 = 0 := by
  simp [degrees]

theorem radians_neg (x : ℝ) : radians (-x) = -(radians x) := by
  simp [radians]

theorem radians_svgArrowTheta (dx dy : ℝ) :
    radians (svgArrowTheta dx dy) = -(atan2 dy dx) := by
  unfold svgArrowTheta
  rw [radians_neg, radians_degrees]

theorem radians_mplArrowTheta (dx dy : ℝ) :
    radians (mplArrowTheta dx dy) = atan2 dy dx :=
  radians_degrees _

theorem sq_sum_pos {dx dy : ℝ} (h : ¬(dx = 0 ∧ dy = 0)) : 0 < dx ^ 2 + dy ^ 2 := by
  rcases not_and_or.mp h with h1 | h1
  · have := pow_two_pos_of_ne_zero h1
    nlinarith [sq_nonneg dy]
  · have := pow_two_pos_of_ne_zero h1
    nlinarith [sq_nonneg dx]

/-- Counterexample to claim C6 as stated: on the matplotlib backend,
arrow(0, 0, 1, 0) with head size 0.2 places the arrow tip exactly at
(1, 0); the claimed tip abscissa 1 - lw times cos 0 (the tip pulled back
by the default line width 2 in user units) differs from the actual 1. -/
theorem C6_counterexample :
    (mplArrow mplFig0 0 0 1 0 0.2 0.2 "black" 2 none 1).artists
      = [MplArtist.polygonA
          [((0.8 : ℝ), (0.1 : ℝ)), ((1 : ℝ), (0 : ℝ)), ((0.8 : ℝ), (-0.1 : ℝ))]
          true "none" (some "black") 1 1 none] ∧
    (1 : ℝ) ≠ 0 + 1 - 2 * Real.cos 0 := by
  constructor
  · have hA : atan2 0 1 = 0 := atan2_zero_of_nonneg (by norm_num)
    have hTheta : mplArrowTheta 1 0 = 0 := by
      simp [mplArrowTheta, hA, degrees_zero]
    have hsqrt : Real.sqrt ((1 : ℝ) ^ 2 + 0 ^ 2) = 1 := by
      rw [show ((1 : ℝ) ^ 2 + 0 ^ 2) = 1 by norm_num]
      exact Real.sqrt_one
    have hFin : ∀ off : ℝ, mplArrowFin 0 0 1 0 0.2 off = ((0.8 : ℝ), off) := by
      intro off
      simp only [mplArrowFin, hTheta, hsqrt, ptRotate, ptAdd, radians_zero,
        Real.cos_zero, Real.sin_zero]
      norm_num
    simp only [mplArrow, hFin, mplFig0]
    norm_num
  · rw [Real.cos_zero]
    norm_num

/-- Claim C6 as amended: on the raster backend the filled triangular
arrowhead has its tip exactly at (x+dx, y+dy) with no pullback, and its
back corners offset plus or minus headwidth/2 perpendicular to (dx, dy);
on the vector backend the tip is pulled back by lw device units (lw over
scale user units) along (dx, dy), and the back corners are offset plus or
minus the device headwidth/2 perpendicular to the device direction.  In
particular arrow(0,0,1,0, headwidth 0.2, headlength 0.2) yields fin
offsets of plus and minus 0.1 user units on both backends, tip (1, 0) on
the raster backend and device tip (32.4 - lw, 0) on the vector backend. -/
theorem C6_arrow_amended :
    (∀ (f : MplFig) (x y dx dy hw hl : ℝ) (c : String) (lw : ℝ) (clip : Option BBoxR) (zo : ℤ),
      (mplArrow f x y dx dy hw hl c lw clip zo).artists
        = f.artists ++ [MplArtist.polygonA
            [mplArrowFin x y dx dy hl (hw / 2), (x + dx, y + dy),
             mplArrowFin x y dx dy hl (-(hw / 2))] true "none" (some c) 1 zo clip]) ∧
    (∀ x y dx dy hl off : ℝ, ¬(dx = 0 ∧ dy = 0) →
      mplArrowFin x y dx dy hl off
        = (x + ((Real.sqrt (dx ^ 2 + dy ^ 2) - hl) * dx - off * dy) / Real.sqrt (dx ^ 2 + dy ^ 2),
           y + ((Real.sqrt (dx ^ 2 + dy ^ 2) - hl) * dy + off * dx) /
             Real.sqrt (dx ^ 2 + dy ^ 2))) ∧
    (∀ x y dx dy lw : ℝ, ¬(dx = 0 ∧ dy = 0) →
      svgArrowHead x y dx dy lw
        = (x + dx - lw * dx / Real.sqrt (dx ^ 2 + dy ^ 2),
           y - dy + lw * dy / Real.sqrt (dx ^ 2 + dy ^ 2))) ∧
    (∀ (f : SvgFig) (x y dx dy hw hl : ℝ) (c : String) (lw : ℝ) (zo : ℤ),
      (svgArrow f x y dx dy hw hl c lw zo).svgelements = f.svgelements ++
        [(zo, SvgElem.arrowHeadPath
            (svgArrowHead (x * f.scale) (-(y * f.scale)) (dx * f.scale) (dy * f.scale) lw)
            (svgArrowFin (x * f.scale) (-(y * f.scale)) (dx * f.scale) (dy * f.scale)
              (hl * f.scale) (hw * f.scale / 2))
            (svgArrowFin (x * f.scale) (-(y * f.scale)) (dx * f.scale) (dy * f.scale)
              (hl * f.scale) (-(hw * f.scale / 2))) c),
         (zo, SvgElem.arrowTailPath
            (svgArrowFin (x * f.scale) (-(y * f.scale)) (dx * f.scale) (dy * f.scale)
              (hl * f.scale) 0) (x * f.scale, -(y * f.scale)) c lw)]) ∧
    (svgArrow figDefault 0 0 1 0 0.2 0.2 "black" 2 1).svgelements
      = figDefault.svgelements ++
        [(1, SvgElem.arrowHeadPath ((30.4 : ℝ), (0 : ℝ)) ((25.92 : ℝ), (3.24 : ℝ))
            ((25.92 : ℝ), (-3.24 : ℝ)) "black"),
         (1, SvgElem.arrowTailPath ((25.92 : ℝ), (0 : ℝ)) ((0 : ℝ), (0 : ℝ)) "black" 2)] := by
  have hfin : ∀ x y dx dy hl off : ℝ, ¬(dx = 0 ∧ dy = 0) →
      mplArrowFin x y dx dy hl off
        = (x + ((Real.sqrt (dx ^ 2 + dy ^ 2) - hl) * dx - off * dy) / Real.sqrt (dx ^ 2 + dy ^ 2),
           y + ((Real.sqrt (dx ^ 2 + dy ^ 2) - hl) * dy + off * dx) /
             Real.sqrt (dx ^ 2 + dy ^ 2)) := by
    intro x y dx dy hl off h
    have h2 := sq_sum_pos h
    have hL : 0 < Real.sqrt (dx ^ 2 + dy ^ 2) := Real.sqrt_pos.mpr h2
    have hco := cos_atan2 h
    have hsi := sin_atan2 dy dx
    simp only [mplArrowFin, ptRotate, ptAdd, radians_mplArrowTheta, hco, hsi, Prod.ext_iff]
    constructor
    · field_simp
      ring
    · field_simp
      ring
  refine ⟨?_, hfin, ?_, ?_, ?_⟩
  · intro f x y dx dy hw hl c lw clip zo
    rfl
  · intro x y dx dy lw h
    have h2 := sq_sum_pos h
    have hL : 0 < Real.sqrt (dx ^ 2 + dy ^ 2) := Real.sqrt_pos.mpr h2
    have hco := cos_atan2 h
    have hsi := sin_atan2 dy dx
    simp only [svgArrowHead, radians_svgArrowTheta, Real.cos_neg, Real.sin_neg,
      hco, hsi, Prod.ext_iff]
    constructor
    · ring
    · ring
  · intro f x y dx dy hw hl c lw zo
    rfl
  · have hA : atan2 0 32.4 = 0 := atan2_zero_of_nonneg (by norm_num)
    have hTheta : svgArrowTheta 32.4 0 = 0 := by
      simp [svgArrowTheta, hA, degrees_zero]
    have hsqrt : Real.sqrt ((32.4 : ℝ) ^ 2 + 0 ^ 2) = 32.4 := by
      rw [show ((32.4 : ℝ) ^ 2 + 0 ^ 2) = 32.4 ^ 2 by norm_num]
      exact Real.sqrt_sq (by norm_num)
    have hHead : svgArrowHead 0 0 32.4 0 2 = ((30.4 : ℝ), (0 : ℝ)) := by
      simp only [svgArrowHead, hTheta, radians_zero, Real.cos_zero, Real.sin_zero,
        Prod.ext_iff]
      norm_num
    have hFin : ∀ off : ℝ, svgArrowFin 0 0 32.4 0 6.48 off = ((25.92 : ℝ), off) := by
      intro off
      simp only [svgArrowFin, hTheta, hsqrt, ptRotate, ptAdd, radians_zero,
        Real.cos_zero, Real.sin_zero]
      norm_num
    simp only [svgArrow, xform, figDefault_scale]
    norm_num
    norm_num at hHead hFin
    exact ⟨⟨hHead, hFin _, hFin _⟩, hFin _⟩

/-- Witness for the amended C6 at the concrete direction (1, 0): the fin
decomposition and the vector-backend pullback formula instantiated where
the hypotheses hold. -/
theorem C6_witness :
    ¬((1 : ℝ) = 0 ∧ (0 : ℝ) = 0) ∧
    mplArrowFin 0 0 1 0 0.2 0.1
      = ((0 : ℝ) + ((Real.sqrt (1 ^ 2 + 0 ^ 2) - 0.2) * 1 - 0.1 * 0) / Real.sqrt (1 ^ 2 + 0 ^ 2),
         (0 : ℝ) + ((Real.sqrt (1 ^ 2 + 0 ^ 2) - 0.2) * 0 + 0.1 * 1) /
           Real.sqrt (1 ^ 2 + 0 ^ 2)) ∧
    svgArrowHead 0 0 1 0 2
      = ((0 : ℝ) + 1 - 2 * 1 / Real.sqrt (1 ^ 2 + 0 ^ 2),
         (0 : ℝ) - 0 + 2 * 0 / Real.sqrt (1 ^ 2 + 0 ^ 2)) :=
  ⟨by norm_num,
    C6_arrow_amended.2.1 0 0 1 0 0.2 0.1 (by norm_num),
    C6_arrow_amended.2.2.1 0 0 1 0 2 (by norm_num)⟩

theorem arcT_spec {s h : ℝ} (hs : 0 < s) (hh : 0 < h) (w θ : ℝ) :
    atan2 (w * s * Real.sin θ) (h * s * Real.cos θ)
      = atan2 ((w / h) * Real.sin θ) (Real.cos θ) := by
  have hpos : 0 < h * s := mul_pos hh hs
  have h1 : w * s * Real.sin θ = (h * s) * ((w / h) * Real.sin θ) := by
    field_simp
    ring
  have h2 : h * s * Real.cos θ = (h * s) * Real.cos θ := by ring
  rw [h1, h2, atan2_smul hpos]

/-- Claim C1: for every svg arc call (positive user height, positive
scale) whose computed sweep endpoints do not coincide within the 0.1
device tolerance, the eccentric parameter bounds equal
atan2((width/height) sin theta, cos theta) at the internal (negated,
radian) angles; the lifted bound t1 satisfies exactly the loop contract
(at least t2, reached from the raw t1 by whole turns, unchanged when
already at least t2, and overshooting by less than one turn otherwise);
and the emitted node is a single elliptical-arc path whose large-arc flag
is 1 exactly when the angular span is at least pi and whose sweep flag is
always 1. -/
theorem C1_arc_flags (f : SvgFig) (cx cy w h θ1 θ2 ang : ℝ) (color : String) (lw : ℝ)
    (A : ArcData) (hA : A = arcCalc f cx cy w h θ1 θ2 ang color lw)
    (hs : 0 < f.scale) (hh : 0 < h)
    (hnc : ¬(|A.dx| < 0.1 ∧ |A.dy| < 0.1)) :
    A.t1raw = atan2 ((w / h) * Real.sin (radians (-θ1))) (Real.cos (radians (-θ1))) ∧
    A.t2 = atan2 ((w / h) * Real.sin (radians (-θ2))) (Real.cos (radians (-θ2))) ∧
    A.t2 ≤ A.t1 ∧
    (∃ k : ℕ, A.t1 = A.t1raw + 2 * Real.pi * k) ∧
    (A.t2 ≤ A.t1raw → A.t1 = A.t1raw) ∧
    (A.t1raw < A.t2 → A.t1 - 2 * Real.pi < A.t2) ∧
    A.elem = SvgElem.arcPath A.startx A.starty (A.width / 2) (A.height / 2) A.angle
      (if Real.pi ≤ |A.t2 - A.t1| then 1 else 0) 1 A.dx A.dy color lw := by
  subst hA
  simp only [arcCalc] at hnc ⊢
  refine ⟨arcT_spec hs hh w (radians (-θ1)), arcT_spec hs hh w (radians (-θ2)),
    whileLift_ge _ _, whileLift_add_turns _ _, fun hge => whileLift_of_ge hge,
    fun hlt => whileLift_min hlt, ?_⟩
  rw [if_neg hnc]

theorem t1_eval_0 {s : ℝ} (hs : 0 < s) :
    atan2 (2 * s * Real.sin (radians (-(0:ℝ)))) (2 * s * Real.cos (radians (-(0:ℝ)))) = 0 := by
  rw [neg_zero, radians_zero, Real.sin_zero, Real.cos_zero, mul_zero, mul_one]
  exact atan2_zero_of_nonneg (by linarith)

theorem t2_eval_90 {s : ℝ} (hs : 0 < s) :
    atan2 (2 * s * Real.sin (radians (-(90:ℝ)))) (2 * s * Real.cos (radians (-(90:ℝ))))
      = -(Real.pi / 2) := by
  have e2 : radians (-(90:ℝ)) = -(Real.pi / 2) := by unfold radians; ring
  rw [e2, Real.sin_neg, Real.sin_pi_div_two, Real.cos_neg, Real.cos_pi_div_two, mul_zero]
  rw [mul_neg_one]
  exact atan2_neg_half_pi (by linarith)

theorem arcCalc_C1_eval :
    (arcCalc figDefault 0 0 2 2 0 90 0 "black" 2).dx = 32.4 ∧
    (arcCalc figDefault 0 0 2 2 0 90 0 "black" 2).dy = 32.4 := by
  have hs32 : 0 < figDefault.scale := by rw [figDefault_scale]; norm_num
  simp only [arcCalc, xform]
  rw [t1_eval_0 hs32, t2_eval_90 hs32]
  rw [whileLift_of_ge (by linarith [Real.pi_pos])]
  rw [neg_zero, radians_zero, Real.cos_zero, Real.sin_zero,
    Real.cos_neg, Real.cos_pi_div_two, Real.sin_neg, Real.sin_pi_div_two]
  rw [figDefault_scale]
  norm_num
  have ra : round2 ((162:ℝ)/5) = 162/5 := round2_of_mul_int 3240 (by norm_num)
  have rb : round2 (0:ℝ) = 0 := round2_of_mul_int 0 (by norm_num)
  have rc : round2 (-((162:ℝ)/5)) = -(162/5) := round2_of_mul_int (-3240) (by norm_num)
  rw [ra, rb, rc]
  norm_num

/-- Witness for C1 at the concrete quarter-circle arc
arc((0,0), 2, 2, 0, 90, 0) on the default figure, whose sweep endpoints
are 32.4 device units apart on each axis. -/
theorem C1_witness :
    (0 < figDefault.scale ∧ 0 < (2 : ℝ) ∧
      ¬(|(arcCalc figDefault 0 0 2 2 0 90 0 "black" 2).dx| < 0.1 ∧
        |(arcCalc figDefault 0 0 2 2 0 90 0 "black" 2).dy| < 0.1)) ∧
    ((arcCalc figDefault 0 0 2 2 0 90 0 "black" 2).t1raw
        = atan2 ((2 / 2) * Real.sin (radians (-0))) (Real.cos (radians (-0))) ∧
      (arcCalc figDefault 0 0 2 2 0 90 0 "black" 2).t2
        = atan2 ((2 / 2) * Real.sin (radians (-90))) (Real.cos (radians (-90))) ∧
      (arcCalc figDefault 0 0 2 2 0 90 0 "black" 2).t2
        ≤ (arcCalc figDefault 0 0 2 2 0 90 0 "black" 2).t1 ∧
      (∃ k : ℕ, (arcCalc figDefault 0 0 2 2 0 90 0 "black" 2).t1
        = (arcCalc figDefault 0 0 2 2 0 90 0 "black" 2).t1raw + 2 * Real.pi * k) ∧
      ((arcCalc figDefault 0 0 2 2 0 90 0 "black" 2).t2
          ≤ (arcCalc figDefault 0 0 2 2 0 90 0 "black" 2).t1raw →
        (arcCalc figDefault 0 0 2 2 0 90 0 "black" 2).t1
          = (arcCalc figDefault 0 0 2 2 0 90 0 "black" 2).t1raw) ∧
      ((arcCalc figDefault 0 0 2 2 0 90 0 "black" 2).t1raw
          < (arcCalc figDefault 0 0 2 2 0 90 0 "black" 2).t2 →
        (arcCalc figDefault 0 0 2 2 0 90 0 "black" 2).t1 - 2 * Real.pi
          < (arcCalc figDefault 0 0 2 2 0 90 0 "black" 2).t2) ∧
      (arcCalc figDefault 0 0 2 2 0 90 0 "black" 2).elem
        = SvgElem.arcPath (arcCalc figDefault 0 0 2 2 0 90 0 "black" 2).startx
            (arcCalc figDefault 0 0 2 2 0 90 0 "black" 2).starty
            ((arcCalc figDefault 0 0 2 2 0 90 0 "black" 2).width / 2)
            ((arcCalc figDefault 0 0 2 2 0 90 0 "black" 2).height / 2)
            (arcCalc figDefault 0 0 2 2 0 90 0 "black" 2).angle
            (if Real.pi ≤ |(arcCalc figDefault 0 0 2 2 0 90 0 "black" 2).t2
                - (arcCalc figDefault 0 0 2 2 0 90 0 "black" 2).t1| then 1 else 0) 1
            (arcCalc figDefault 0 0 2 2 0 90 0 "black" 2).dx
            (arcCalc figDefault 0 0 2 2 0 90 0 "black" 2).dy "black" 2) := by
  have hs : 0 < figDefault.scale := by rw [figDefault_scale]; norm_num
  have hnc : ¬(|(arcCalc figDefault 0 0 2 2 0 90 0 "black" 2).dx| < 0.1 ∧
      |(arcCalc figDefault 0 0 2 2 0 90 0 "black" 2).dy| < 0.1) := by
    rw [arcCalc_C1_eval.1, arcCalc_C1_eval.2]
    rw [abs_of_nonneg (by norm_num : (0:ℝ) ≤ 32.4)]
    norm_num
  exact ⟨⟨hs, by norm_num, hnc⟩,
    C1_arc_flags figDefault 0 0 2 2 0 90 0 "black" 2 _ rfl hs (by norm_num) hnc⟩

theorem arcCalc_full360 (f : SvgFig) (cx cy : ℝ) (color : String) (lw : ℝ) :
    (arcCalc f cx cy 4 2 0 360 0 color lw).dx = 0 ∧
    (arcCalc f cx cy 4 2 0 360 0 color lw).dy = 0 ∧
    (arcCalc f cx cy 4 2 0 360 0 color lw).elem
      = SvgElem.ellipseE (cx * f.scale) (-(cy * f.scale)) (4 * f.scale / 2) (2 * f.scale / 2)
          0 color lw := by
  have e360 : radians (-(360:ℝ)) = -(2 * Real.pi) := by unfold radians; ring
  simp only [arcCalc, xform, e360, Real.sin_neg, Real.sin_two_pi, Real.cos_neg,
    Real.cos_two_pi, neg_zero, radians_zero, Real.sin_zero, Real.cos_zero,
    mul_zero, mul_one, zero_mul, sub_zero, add_zero, whileLift_of_ge le_rfl, sub_self,
    abs_zero]
  norm_num

/-- Claim C2: whenever the computed sweep endpoints of an svg arc call
coincide within 0.1 device units on both axes, the call completes
normally and emits a dedicated ellipse node (appending exactly one node);
in particular arc(center, 4, 2, 0, 360, 0) emits a dedicated ellipse node
for every center and every scale. -/
theorem C2_full_ellipse :
    (∀ (f : SvgFig) (cx cy w h θ1 θ2 ang : ℝ) (color : String) (lw : ℝ) (zo : ℤ),
      (|(arcCalc f cx cy w h θ1 θ2 ang color lw).dx| < 0.1 ∧
       |(arcCalc f cx cy w h θ1 θ2 ang color lw).dy| < 0.1) →
      svgArc f (cx, cy) w h θ1 θ2 ang color lw zo none
        = { f with svgelements := f.svgelements ++
            [(zo, SvgElem.ellipseE (cx * f.scale) (-(cy * f.scale)) (w * f.scale / 2)
                (h * f.scale / 2) (-ang) color lw)] }) ∧
    (∀ (f : SvgFig) (cx cy : ℝ) (color : String) (lw : ℝ) (zo : ℤ),
      svgArc f (cx, cy) 4 2 0 360 0 color lw zo none
        = { f with svgelements := f.svgelements ++
            [(zo, SvgElem.ellipseE (cx * f.scale) (-(cy * f.scale)) (4 * f.scale / 2)
                (2 * f.scale / 2) 0 color lw)] }) := by
  constructor
  · intro f cx cy w h θ1 θ2 ang color lw zo hcoin
    have helem : (arcCalc f cx cy w h θ1 θ2 ang color lw).elem
        = SvgElem.ellipseE (cx * f.scale) (-(cy * f.scale)) (w * f.scale / 2)
            (h * f.scale / 2) (-ang) color lw := by
      simp only [arcCalc, xform] at hcoin ⊢
      rw [if_pos hcoin]
    simp only [svgArc]
    rw [helem]
  · intro f cx cy color lw zo
    have h360 := arcCalc_full360 f cx cy color lw
    simp only [svgArc]
    rw [h360.2.2]

/-- Witness for C2 at the concrete call arc((0,0), 4, 2, 0, 360, 0) on
the default figure: its endpoints coincide exactly, and a dedicated
ellipse node is appended. -/
theorem C2_witness :
    (|(arcCalc figDefault 0 0 4 2 0 360 0 "black" 2).dx| < 0.1 ∧
     |(arcCalc figDefault 0 0 4 2 0 360 0 "black" 2).dy| < 0.1) ∧
    svgArc figDefault (0, 0) 4 2 0 360 0 "black" 2 1 none
      = { figDefault with svgelements := figDefault.svgelements ++
          [(1, SvgElem.ellipseE (0 * figDefault.scale) (-(0 * figDefault.scale))
              (4 * figDefault.scale / 2) (2 * figDefault.scale / 2) (-0) "black" 2)] } := by
  have h := arcCalc_full360 figDefault 0 0 "black" 2
  have hcoin : |(arcCalc figDefault 0 0 4 2 0 360 0 "black" 2).dx| < 0.1 ∧
      |(arcCalc figDefault 0 0 4 2 0 360 0 "black" 2).dy| < 0.1 := by
    rw [h.1, h.2.1]
    norm_num
  exact ⟨hcoin, C2_full_ellipse.1 figDefault 0 0 4 2 0 360 0 "black" 2 1 hcoin⟩
